import Mathlib

/-!
Verification development for the modem-exporter program (src/main.rs).

The program is a bridge between a modem's session-based HTTP API and a
pull-based metrics endpoint.  We shallowly embed its data model and
operations: pure functions become Lean functions, the two network calls
become lookups in an explicit `World` oracle, and every outbound HTTP
request is recorded in a trace so that temporal claims (ordering, absence
of retry) are statable.  External collaborators (reqwest transport,
quick_xml, prometheus_client text encoding, warp) are modelled only at
their observable interface, as the spec places them out of scope.
-/

/-- Mirrors `struct SessionResponse { session: String, token: String }`
(src/main.rs lines 40-46): the session cookie value (`SesInfo`) and the
verification token (`TokInfo`). -/
structure SessionResponse where
  session : String
  token : String
deriving DecidableEq, Repr

/-- Mirrors `struct TrafficStatistics` (src/main.rs lines 48-57): six u64
counters.  u64 values are embedded as `Nat`; the program performs no
arithmetic on them, so no overflow reduction is needed. -/
structure TrafficStatistics where
  current_upload : Nat
  current_download : Nat
  current_connect_time : Nat
  total_upload : Nat
  total_download : Nat
  total_connect_time : Nat
deriving DecidableEq, Repr

/-- Mirrors `enum ModemResponse<T> { Response(T), Error { code, message } }`
(src/main.rs lines 20-28), the device's generic response envelope.
`i32` codes are embedded as `Int`. -/
inductive ModemResponse (T : Type) where
  | Response (val : T)
  | Error (code : Int) (message : String)
deriving DecidableEq, Repr

/-- Error category of a `ModemError`, distinguishing the three failure
origins visible in the source: reqwest transport errors, quick_xml parse
errors, and device-reported API errors. -/
inductive ErrorCategory where
  | transport
  | parse
  | api
deriving DecidableEq, Repr

/-- Shallow model of the `anyhow::Error` values the program produces.  The
source wraps reqwest errors (transport), quick_xml errors (parse) and its
own `anyhow!("api error: ...")` (api); `.context(...)` wraps an existing
error with a context string. -/
inductive ModemError where
  | transport (msg : String)
  | parse (msg : String)
  | api (msg : String)
  | context (ctx : String) (inner : ModemError)
deriving DecidableEq, Repr

/-- The failure origin of an error, looking through `context` wrappers. -/
def ModemError.category : ModemError → ErrorCategory
  | .transport _ => .transport
  | .parse _ => .parse
  | .api _ => .api
  | .context _ inner => inner.category

/-- Models `format!("{err:?}")` on an `anyhow::Error`: the outermost
context followed by the chain of causes. -/
def ModemError.render : ModemError → String
  | .transport msg => msg
  | .parse msg => msg
  | .api msg => msg
  | .context ctx inner => ctx ++ "\n\nCaused by:\n    " ++ inner.render

/-- Mirrors `ModemResponse::ok` (src/main.rs lines 30-38): the success
variant yields the inner value, the error variant fails with
`anyhow!("api error: code={code} message={message}")`. -/
def ModemResponse.ok {T : Type} : ModemResponse T → Except ModemError T
  | .Response val => .ok val
  | .Error code message =>
      .error (.api ("api error: code=" ++ toString code ++ " message=" ++ message))

/-- Mirrors `struct ModemRequest<T>(T)` with `#[serde(rename = "request")]`
(src/main.rs lines 16-18): a newtype wrapper whose serde root element is
renamed to "request". -/
structure ModemRequest (T : Type) where
  inner : T
deriving DecidableEq, Repr

/-- Models quick_xml serde serialization of `ModemRequest<T>`: the
`rename = "request"` attribute makes the serialized document a single
top-level "request" element whose content is the inner value's
serialization (`ser`). -/
def ModemRequest.serializeWith {T : Type} (ser : T → String) (r : ModemRequest T) : String :=
  "<request>" ++ ser r.inner ++ "</request>"

/-- HTTP method of an outbound device request. -/
inductive HttpMethod where
  | get
  | post
deriving DecidableEq, Repr

/-- One outbound HTTP request as built by `Modem::get` / `Modem::post`:
the full URL, the optional `Cookie` and `__RequestVerificationToken`
headers, and the optional body (POST only). -/
structure IssuedRequest where
  method : HttpMethod
  url : String
  cookie : Option String
  token : Option String
  body : Option String
deriving DecidableEq, Repr

/-- Result of one body parse by quick_xml, at the target type. -/
inductive ParseResult (α : Type) where
  | ok (val : α)
  | fail (msg : String)
deriving DecidableEq, Repr

/-- Observable outcome of one HTTP exchange with the device: either the
send fails (network/connection error) or a response with some status
arrives whose body then either deserializes to the expected type or is
malformed. -/
inductive FetchOutcome (α : Type) where
  | netError (msg : String)
  | httpResponse (status : Nat) (parsed : ParseResult α)
deriving DecidableEq, Repr

/-- Models `reqwest::Response::error_for_status`: fails exactly on client
(4xx) and server (5xx) error statuses. -/
def errorForStatus (status : Nat) : Bool :=
  400 ≤ status && status ≤ 599

/-- Mirrors `struct Modem { client: Client, session: Option<SessionResponse> }`
(src/main.rs lines 128-131).  The reqwest `Client` holds no state observable
by this program and is omitted from the embedding. -/
structure Modem where
  session : Option SessionResponse
deriving DecidableEq, Repr

/-- Mirrors `Modem::new` (src/main.rs lines 133-139): always succeeds with
a fresh, sessionless state. -/
def Modem.new : Except ModemError Modem :=
  .ok { session := none }

/-- The request URL base used by both `get` and `post`:
`format!("http://192.168.8.1{path}")`. -/
def modemUrl (path : String) : String :=
  "http://192.168.8.1" ++ path

/-- The GET request built by `Modem::get` (src/main.rs lines 141-146): the
`Cookie` and `__RequestVerificationToken` headers are attached exactly when
a session is present. -/
def Modem.buildGet (m : Modem) (path : String) : IssuedRequest :=
  match m.session with
  | some s =>
      { method := .get, url := modemUrl path
        cookie := some s.session, token := some s.token, body := none }
  | none =>
      { method := .get, url := modemUrl path
        cookie := none, token := none, body := none }

/-- The POST request built by `Modem::post` (src/main.rs lines 152-158),
with the already-serialized body attached. -/
def Modem.buildPost (m : Modem) (path : String) (body : String) : IssuedRequest :=
  match m.session with
  | some s =>
      { method := .post, url := modemUrl path
        cookie := some s.session, token := some s.token, body := some body }
  | none =>
      { method := .post, url := modemUrl path
        cookie := none, token := none, body := some body }

/-- Mirrors `Modem::get` (src/main.rs lines 141-150): build the request,
send it (one attempt, recorded in the trace), fail with a transport error
on a network error or a 4xx/5xx status, otherwise parse the body — a
malformed body is a parse error.  `world` supplies the device's behaviour
on the issued request. -/
def Modem.get {α : Type} (m : Modem) (path : String)
    (world : IssuedRequest → FetchOutcome α) :
    Except ModemError α × List IssuedRequest :=
  match world (m.buildGet path) with
  | .netError msg => (.error (.transport msg), [m.buildGet path])
  | .httpResponse status parsed =>
      if errorForStatus status then
        (.error (.transport ("HTTP status error: " ++ toString status)), [m.buildGet path])
      else
        match parsed with
        | .ok val => (.ok val, [m.buildGet path])
        | .fail msg => (.error (.parse msg), [m.buildGet path])

/-- Mirrors `Modem::post` (src/main.rs lines 152-163): serialize the
request body with `ser`, build and send the request once, fail with a
transport error on a network error or 4xx/5xx status, and wrap a body
parse failure in the "deserialize response" context. -/
def Modem.post {β α : Type} (m : Modem) (path : String) (req : β) (ser : β → String)
    (world : IssuedRequest → FetchOutcome α) :
    Except ModemError α × List IssuedRequest :=
  match world (m.buildPost path (ser req)) with
  | .netError msg => (.error (.transport msg), [m.buildPost path (ser req)])
  | .httpResponse status parsed =>
      if errorForStatus status then
        (.error (.transport ("HTTP status error: " ++ toString status)),
          [m.buildPost path (ser req)])
      else
        match parsed with
        | .ok val => (.ok val, [m.buildPost path (ser req)])
        | .fail msg =>
            (.error (.context "deserialize response" (.parse msg)),
              [m.buildPost path (ser req)])

/-- Path of the unauthenticated session-info endpoint. -/
def sesTokPath : String := "/api/webserver/SesTokInfo"

/-- Path of the authenticated traffic-statistics endpoint. -/
def trafficStatsPath : String := "/api/monitoring/traffic-statistics"

/-- The device's behaviour during one scrape, typed per endpoint: what the
transport and quick_xml deserialization yield for the session request
(target type `Option<SessionResponse>`, as inferred in the source from the
assignment to `self.session`) and for the statistics request (target type
`ModemResponse<TrafficStatistics>`). -/
structure World where
  onSession : IssuedRequest → FetchOutcome (Option SessionResponse)
  onStats : IssuedRequest → FetchOutcome (ModemResponse TrafficStatistics)

/-- Mirrors `Modem::gather_statistics` (src/main.rs lines 165-172):
first `self.session = self.get("/api/webserver/SesTokInfo").context("get session")?`,
then a GET of the statistics endpoint resolved through `ModemResponse::ok`.
Returns the result together with the trace of issued requests in order. -/
def Modem.gather_statistics (m : Modem) (w : World) :
    Except ModemError TrafficStatistics × List IssuedRequest :=
  match m.get sesTokPath w.onSession with
  | (.error e, t1) => (.error (.context "get session" e), t1)
  | (.ok sess, t1) =>
      match Modem.get { session := sess } trafficStatsPath w.onStats with
      | (.error e, t2) => (.error e, t1 ++ t2)
      | (.ok resp, t2) =>
          match resp.ok with
          | .error e => (.error e, t1 ++ t2)
          | .ok stats => (.ok stats, t1 ++ t2)

/-- Mirrors the local `enum period { session, total }` inside
`TrafficStatistics::encode` (src/main.rs lines 62-66). -/
inductive period where
  | session
  | total
deriving DecidableEq, Repr

/-- Mirrors the local `enum direction { upload, download }`
(src/main.rs lines 70-74). -/
inductive direction where
  | upload
  | download
deriving DecidableEq, Repr

/-- Mirrors the first local `struct labels { period, direction }`
(src/main.rs lines 77-81), the label set of the transferred-bytes family. -/
structure TransferredLabels where
  period : period
  direction : direction
deriving DecidableEq, Repr

/-- Mirrors the second local `struct labels { period }`
(src/main.rs lines 108-111), the label set of the connect-duration family. -/
structure DurationLabels where
  period : period
deriving DecidableEq, Repr

/-- Mirrors `prometheus_client::metrics::MetricType` as used here. -/
inductive MetricType where
  | gauge
  | counter
deriving DecidableEq, Repr

/-- Mirrors `prometheus_client::registry::Unit` as used here. -/
inductive MetricUnit where
  | bytes
  | seconds
deriving DecidableEq, Repr

/-- The descriptor passed to `encoder.encode_descriptor`: name, help text,
unit and metric type. -/
structure Descriptor where
  name : String
  help : String
  unit : MetricUnit
  type : MetricType
deriving DecidableEq, Repr

/-- One metric family as produced by the encoder: its descriptor followed
by the ordered samples, each a label set with its value. -/
structure MetricFamily (L : Type) where
  descriptor : Descriptor
  samples : List (L × Nat)
deriving DecidableEq, Repr

/-- The metrics document produced by one run of `TrafficStatistics::encode`:
the transferred-bytes family and the connect-duration family. -/
structure MetricsDoc where
  transferred : MetricFamily TransferredLabels
  connectDuration : MetricFamily DurationLabels
deriving DecidableEq, Repr

/-- Mirrors `impl Collector for TrafficStatistics`, fn `encode`
(src/main.rs lines 59-126): one descriptor "modem_transferred"
(help "Transferred bytes", unit bytes, type gauge) with the four samples
encoded in source order, then one descriptor "modem_connect_duration"
(help "Connected duration", unit seconds, type counter) with the two
samples encoded in source order. -/
def TrafficStatistics.encode (s : TrafficStatistics) : MetricsDoc :=
  { transferred :=
      { descriptor :=
          { name := "modem_transferred", help := "Transferred bytes"
            unit := .bytes, type := .gauge }
        samples :=
          [ ({ period := .session, direction := .upload }, s.current_upload)
          , ({ period := .session, direction := .download }, s.current_download)
          , ({ period := .total, direction := .upload }, s.total_upload)
          , ({ period := .total, direction := .download }, s.total_download) ] }
    connectDuration :=
      { descriptor :=
          { name := "modem_connect_duration", help := "Connected duration"
            unit := .seconds, type := .counter }
        samples :=
          [ ({ period := .session }, s.current_connect_time)
          , ({ period := .total }, s.total_connect_time) ] } }

/-- Label value text of a period, as derived by `EncodeLabelValue`. -/
def period.render : period → String
  | .session => "session"
  | .total => "total"

/-- Label value text of a direction, as derived by `EncodeLabelValue`. -/
def direction.render : direction → String
  | .upload => "upload"
  | .download => "download"

/-- Unit suffix appended to the metric name by prometheus_client. -/
def MetricUnit.suffix : MetricUnit → String
  | .bytes => "bytes"
  | .seconds => "seconds"

/-- Metric type text in the TYPE comment line. -/
def MetricType.render : MetricType → String
  | .gauge => "gauge"
  | .counter => "counter"

/-- One transferred-bytes sample line of the text exposition. -/
def renderTransferredSample (sample : TransferredLabels × Nat) : String :=
  "modem_transferred_bytes\x7bperiod=\"" ++ sample.fst.period.render
    ++ "\",direction=\"" ++ sample.fst.direction.render ++ "\"\x7d "
    ++ toString sample.snd ++ "\n"

/-- One connect-duration sample line of the text exposition. -/
def renderDurationSample (sample : DurationLabels × Nat) : String :=
  "modem_connect_duration_seconds_total\x7bperiod=\""
    ++ sample.fst.period.render ++ "\"\x7d " ++ toString sample.snd ++ "\n"

/-- The comment header of one metric family in the text exposition. -/
def renderHeader (fullName : String) (help : String) (type : String)
    (unit : String) : String :=
  "# HELP " ++ fullName ++ " " ++ help ++ ".\n"
    ++ "# TYPE " ++ fullName ++ " " ++ type ++ "\n"
    ++ "# UNIT " ++ fullName ++ " " ++ unit ++ "\n"

/-- Models the text exposition performed by the external
`prometheus_client::encoding::text::encode` on the document produced by
`TrafficStatistics::encode`: each family's header comments followed by its
sample lines, then the terminator.  The exact byte layout of the external
library is out of scope; what matters is that this rendering is a
deterministic function of the document. -/
def renderDoc (doc : MetricsDoc) : String :=
  renderHeader ("modem_transferred_" ++ doc.transferred.descriptor.unit.suffix)
      doc.transferred.descriptor.help doc.transferred.descriptor.type.render
      doc.transferred.descriptor.unit.suffix
    ++ String.join (doc.transferred.samples.map renderTransferredSample)
    ++ renderHeader
        ("modem_connect_duration_" ++ doc.connectDuration.descriptor.unit.suffix)
        doc.connectDuration.descriptor.help
        doc.connectDuration.descriptor.type.render
        doc.connectDuration.descriptor.unit.suffix
    ++ String.join (doc.connectDuration.samples.map renderDurationSample)
    ++ "# EOF\n"

/-- Mirrors `gather_metrics` (src/main.rs lines 175-185): construct a new
`Modem` (fresh, sessionless), run `gather_statistics`, then register the
snapshot as a collector and encode the registry to text.  Returns the
result together with the trace of issued requests. -/
def gather_metrics (w : World) : Except ModemError String × List IssuedRequest :=
  match Modem.new with
  | .error e => (.error e, [])
  | .ok m =>
      match m.gather_statistics w with
      | (.error e, trace) => (.error e, trace)
      | (.ok stats, trace) => (.ok (renderDoc stats.encode), trace)

/-- Mirrors the `/metrics` route handler in `main` (src/main.rs lines
188-194): `gather_metrics().await.unwrap_or_else(|err| format!("{err:?}"))`
returned as a plain string body, which warp serves with HTTP status 200.
The result is the (status, body) pair of the HTTP response. -/
def metricsRoute (w : World) : Nat × String :=
  match (gather_metrics w).fst with
  | .ok body => (200, body)
  | .error e => (200, e.render)

/-- The server loop: each incoming scrape request (its device behaviour
given by one `World`) is answered by one run of the route handler; no
state is carried from one scrape to the next, mirroring that `main` holds
no mutable state outside the per-call `gather_metrics`. -/
def serveLoop : List World → List (Nat × String)
  | [] => []
  | w :: ws => metricsRoute w :: serveLoop ws

/-- The concrete snapshot used by the spec's worked example. -/
def exampleStats : TrafficStatistics :=
  { current_upload := 100, current_download := 200, current_connect_time := 10
    total_upload := 500000, total_download := 900000, total_connect_time := 3600 }

/- Helper lemmas shared by the claim theorems. -/

/-- `Modem::get` issues exactly one request, the one it builds. -/
theorem Modem.get_trace {α : Type} (m : Modem) (path : String)
    (world : IssuedRequest → FetchOutcome α) :
    (m.get path world).snd = [m.buildGet path] := by
  unfold Modem.get
  cases world (m.buildGet path) with
  | netError msg => rfl
  | httpResponse status parsed =>
      by_cases h : errorForStatus status = true
      · simp [h]
      · simp only [h, if_false]
        cases parsed <;> rfl

/-- `Modem::post` issues exactly one request, the one it builds. -/
theorem Modem.post_trace {β α : Type} (m : Modem) (path : String) (req : β)
    (ser : β → String) (world : IssuedRequest → FetchOutcome α) :
    (m.post path req ser world).snd = [m.buildPost path (ser req)] := by
  unfold Modem.post
  cases world (m.buildPost path (ser req)) with
  | netError msg => rfl
  | httpResponse status parsed =>
      by_cases h : errorForStatus status = true
      · simp [h]
      · simp only [h, if_false]
        cases parsed <;> rfl

/-- The first request issued by `gather_statistics` is always the
session-endpoint GET. -/
theorem Modem.gather_statistics_trace_head (m : Modem) (w : World) :
    (m.gather_statistics w).snd.head? = some (m.buildGet sesTokPath) := by
  have h1 := m.get_trace sesTokPath w.onSession
  rcases hg : m.get sesTokPath w.onSession with ⟨res, t1⟩
  rw [hg] at h1
  simp only at h1
  subst h1
  cases res with
  | error e => simp [Modem.gather_statistics, hg]
  | ok sess =>
      rcases hg2 : Modem.get { session := sess } trafficStatsPath w.onStats with ⟨res2, t2⟩
      cases res2 with
      | error e => simp [Modem.gather_statistics, hg, hg2]
      | ok resp =>
          cases hr : resp.ok <;> simp [Modem.gather_statistics, hg, hg2, hr]

/-- C1: the encoded document has exactly four transferred-bytes samples,
one per (period, direction) pair with the corresponding counter value, and
exactly two connect-duration samples with the session and total connect
times, and no other samples in those two families; on the spec's worked
example the session/upload transferred sample is 100 and the total
connect-duration sample is 3600. -/
theorem encode_exact_samples (s : TrafficStatistics) :
    s.encode.transferred.samples =
      [ ({ period := .session, direction := .upload }, s.current_upload)
      , ({ period := .session, direction := .download }, s.current_download)
      , ({ period := .total, direction := .upload }, s.total_upload)
      , ({ period := .total, direction := .download }, s.total_download) ] ∧
    s.encode.transferred.samples.length = 4 ∧
    s.encode.transferred.samples.lookup { period := .session, direction := .upload }
      = some s.current_upload ∧
    s.encode.transferred.samples.lookup { period := .session, direction := .download }
      = some s.current_download ∧
    s.encode.transferred.samples.lookup { period := .total, direction := .upload }
      = some s.total_upload ∧
    s.encode.transferred.samples.lookup { period := .total, direction := .download }
      = some s.total_download ∧
    s.encode.connectDuration.samples =
      [ ({ period := .session }, s.current_connect_time)
      , ({ period := .total }, s.total_connect_time) ] ∧
    s.encode.connectDuration.samples.length = 2 ∧
    s.encode.connectDuration.samples.lookup { period := .session }
      = some s.current_connect_time ∧
    s.encode.connectDuration.samples.lookup { period := .total }
      = some s.total_connect_time ∧
    exampleStats.encode.transferred.samples.lookup
        { period := .session, direction := .upload } = some 100 ∧
    exampleStats.encode.connectDuration.samples.lookup { period := .total }
      = some 3600 :=
  ⟨rfl, rfl, rfl, rfl, rfl, rfl, rfl, rfl, rfl, rfl, rfl, rfl⟩

/-- C2: `ModemResponse::ok` returns the inner value exactly on the success
variant and fails exactly on the error variant, with the failure message
carrying the device-reported code and message verbatim; in particular an
error envelope with code 125 and message "no rights" yields a failure
exposing both. -/
theorem modemResponse_ok_spec {T : Type} (r : ModemResponse T) :
    ((∃ v, r.ok = Except.ok v) ↔ (∃ v, r = ModemResponse.Response v)) ∧
    (∀ v, r = ModemResponse.Response v → r.ok = Except.ok v) ∧
    (∀ c msg, r = ModemResponse.Error c msg →
      r.ok = Except.error (.api ("api error: code=" ++ toString c ++ " message=" ++ msg))) ∧
    (ModemResponse.Error 125 "no rights" : ModemResponse TrafficStatistics).ok
      = Except.error (.api ("api error: code=" ++ "125" ++ " message=" ++ "no rights")) := by
  refine ⟨?_, ?_, ?_, rfl⟩
  · cases r with
    | Response v => simp [ModemResponse.ok]
    | Error c msg => simp [ModemResponse.ok]
  · intro v hv
    subst hv
    rfl
  · intro c msg h
    subst h
    rfl

/-- Witness for C2: both resolution branches at concrete envelopes. -/
theorem modemResponse_ok_spec_witness :
    (ModemResponse.Response exampleStats).ok = Except.ok exampleStats ∧
    (ModemResponse.Error 125 "no rights" : ModemResponse TrafficStatistics).ok
      = Except.error (.api ("api error: code=" ++ toString (125 : Int)
          ++ " message=" ++ "no rights")) :=
  ⟨(modemResponse_ok_spec (ModemResponse.Response exampleStats)).2.1 exampleStats rfl,
   (modemResponse_ok_spec (ModemResponse.Error 125 "no rights")).2.2.1 125 "no rights" rfl⟩

/-- C7: the metrics encoder is a pure, deterministic function of the six
counter fields: two snapshots agreeing on all six fields encode to the
same document and render to byte-identical text. -/
theorem encode_deterministic (s t : TrafficStatistics)
    (h1 : s.current_upload = t.current_upload)
    (h2 : s.current_download = t.current_download)
    (h3 : s.current_connect_time = t.current_connect_time)
    (h4 : s.total_upload = t.total_upload)
    (h5 : s.total_download = t.total_download)
    (h6 : s.total_connect_time = t.total_connect_time) :
    s.encode = t.encode ∧ renderDoc s.encode = renderDoc t.encode := by
  cases s
  cases t
  simp only at h1 h2 h3 h4 h5 h6
  subst h1 h2 h3 h4 h5 h6
  exact ⟨rfl, rfl⟩

/-- Witness for C7: determinism applied at the worked-example snapshot. -/
theorem encode_deterministic_witness :
    exampleStats.encode = exampleStats.encode ∧
    renderDoc exampleStats.encode = renderDoc exampleStats.encode :=
  encode_deterministic exampleStats exampleStats rfl rfl rfl rfl rfl rfl

/-- C4: the `/metrics` handler always answers with HTTP status 200; on
pipeline success the body is the encoded metrics text, on pipeline failure
the body is the rendered error description. -/
theorem metricsRoute_always_200 (w : World) :
    (metricsRoute w).fst = 200 ∧
    ((∃ body, (gather_metrics w).fst = Except.ok body ∧ (metricsRoute w).snd = body) ∨
     (∃ e, (gather_metrics w).fst = Except.error e ∧
        (metricsRoute w).snd = ModemError.render e)) := by
  rcases hg : (gather_metrics w).fst with e | body
  · refine ⟨?_, .inr ⟨e, rfl, ?_⟩⟩ <;> simp [metricsRoute, hg]
  · refine ⟨?_, .inl ⟨body, rfl, ?_⟩⟩ <;> simp [metricsRoute, hg]

/-- C5: every GET and POST built by the client carries the session cookie
and verification-token headers exactly when a session is present (taken
from that session), and omits both when no session is present; each call
issues exactly the request it builds. -/
theorem requests_auth_headers {α β : Type} (m : Modem) (path : String)
    (worldG : IssuedRequest → FetchOutcome α) (body : β) (ser : β → String)
    (worldP : IssuedRequest → FetchOutcome α) :
    (m.get path worldG).snd = [m.buildGet path] ∧
    (m.post path body ser worldP).snd = [m.buildPost path (ser body)] ∧
    (m.buildGet path).cookie = m.session.map SessionResponse.session ∧
    (m.buildGet path).token = m.session.map SessionResponse.token ∧
    (m.buildPost path (ser body)).cookie = m.session.map SessionResponse.session ∧
    (m.buildPost path (ser body)).token = m.session.map SessionResponse.token := by
  refine ⟨m.get_trace path worldG, m.post_trace path body ser worldP, ?_, ?_, ?_, ?_⟩ <;>
  · rcases m with ⟨_ | s⟩ <;> rfl

/-- C6: a POST whose body is the program's `ModemRequest` wrapper (the only
request body type the program defines, serde-renamed to "request") issues
exactly one request whose serialized body is wrapped in a top-level
"request" element. -/
theorem post_body_wrapped {T α : Type} (m : Modem) (path : String)
    (inner : T) (ser : T → String) (world : IssuedRequest → FetchOutcome α) :
    (m.post path (ModemRequest.mk inner) (ModemRequest.serializeWith ser) world).snd
      = [m.buildPost path ("<request>" ++ ser inner ++ "</request>")] ∧
    (m.buildPost path ("<request>" ++ ser inner ++ "</request>")).body
      = some ("<request>" ++ ser inner ++ "</request>") := by
  constructor
  · have h := m.post_trace path (ModemRequest.mk inner) (ModemRequest.serializeWith ser) world
    simpa [ModemRequest.serializeWith] using h
  · rcases m with ⟨_ | s⟩ <;> rfl

/-- C9: every scrape starts from a freshly constructed, sessionless client
state, its first outbound request is the unauthenticated session
acquisition, and the server loop carries no state from one scrape to the
next (each response is a function of that scrape's world alone). -/
theorem fresh_session_per_scrape (w : World) (ws : List World) :
    Modem.new = Except.ok { session := none } ∧
    (gather_metrics w).snd.head? = some (Modem.buildGet { session := none } sesTokPath) ∧
    (Modem.buildGet { session := none } sesTokPath).cookie = none ∧
    (Modem.buildGet { session := none } sesTokPath).token = none ∧
    serveLoop (w :: ws) = metricsRoute w :: serveLoop ws := by
  have h := Modem.gather_statistics_trace_head { session := none } w
  rcases hg : Modem.gather_statistics { session := none } w with ⟨res, trace⟩
  rw [hg] at h
  simp only at h
  refine ⟨rfl, ?_, rfl, rfl, rfl⟩
  cases res <;> simp [gather_metrics, Modem.new, hg, h]

/-- C3: a malformed session-endpoint body makes the whole scrape fail with
a parse-category error ("get session" context around the parse failure),
and the statistics endpoint is never contacted: the trace holds only the
session request, whose URL differs from the statistics URL. -/
theorem session_parse_failure_aborts (m : Modem) (w : World) (status : Nat) (msg : String)
    (hs : w.onSession (m.buildGet sesTokPath) = .httpResponse status (.fail msg))
    (hok : errorForStatus status = false) :
    (m.gather_statistics w).fst = Except.error (.context "get session" (.parse msg)) ∧
    (ModemError.context "get session" (.parse msg)).category = .parse ∧
    (m.gather_statistics w).snd = [m.buildGet sesTokPath] ∧
    (m.buildGet sesTokPath).url ≠ modemUrl trafficStatsPath := by
  have hget : m.get sesTokPath w.onSession
      = (.error (.parse msg), [m.buildGet sesTokPath]) := by
    unfold Modem.get
    rw [hs]
    simp [hok]
  refine ⟨?_, rfl, ?_, ?_⟩
  · simp [Modem.gather_statistics, hget]
  · simp [Modem.gather_statistics, hget]
  · rcases m with ⟨_ | s⟩ <;>
      simp [Modem.buildGet, modemUrl, sesTokPath, trafficStatsPath]

/-- A device whose session endpoint returns a 200 with a body that fails
to deserialize; used to witness C3. -/
def worldSessionMalformed : World :=
  { onSession := fun _ => .httpResponse 200 (.fail "malformed")
    onStats := fun _ => .netError "never reached" }

/-- Witness for C3 at a concrete malformed-session world. -/
theorem session_parse_failure_aborts_witness :
    (Modem.gather_statistics { session := none } worldSessionMalformed).fst
      = Except.error (.context "get session" (.parse "malformed")) ∧
    (ModemError.context "get session" (.parse "malformed")).category = .parse ∧
    (Modem.gather_statistics { session := none } worldSessionMalformed).snd
      = [Modem.buildGet { session := none } sesTokPath] ∧
    (Modem.buildGet { session := none } sesTokPath).url ≠ modemUrl trafficStatsPath :=
  session_parse_failure_aborts { session := none } worldSessionMalformed 200 "malformed"
    rfl (by decide)

/-- C8: a network failure or a 4xx/5xx status on any device request fails
that request with a transport-category error after exactly one attempt (no
retry), and a transport failure of the session call is surfaced unchanged
(wrapped only in the "get session" context) to the scrape caller. -/
theorem transport_errors_no_retry {α : Type} (m : Modem) (path : String)
    (world : IssuedRequest → FetchOutcome α) (w : World) :
    (∀ msg, world (m.buildGet path) = .netError msg →
        m.get path world = (.error (.transport msg), [m.buildGet path]) ∧
        (ModemError.transport msg).category = .transport) ∧
    (∀ status parsed, world (m.buildGet path) = .httpResponse status parsed →
        errorForStatus status = true →
        m.get path world
          = (.error (.transport ("HTTP status error: " ++ toString status)),
              [m.buildGet path])) ∧
    (∀ msg, w.onSession (m.buildGet sesTokPath) = .netError msg →
        (m.gather_statistics w).fst
          = Except.error (.context "get session" (.transport msg)) ∧
        (ModemError.context "get session" (.transport msg)).category = .transport ∧
        (m.gather_statistics w).snd = [m.buildGet sesTokPath]) := by
  refine ⟨?_, ?_, ?_⟩
  · intro msg h
    refine ⟨?_, rfl⟩
    unfold Modem.get
    rw [h]
  · intro status parsed h htrue
    unfold Modem.get
    rw [h]
    simp [htrue]
  · intro msg h
    have hget : m.get sesTokPath w.onSession
        = (.error (.transport msg), [m.buildGet sesTokPath]) := by
      unfold Modem.get
      rw [h]
    refine ⟨?_, rfl, ?_⟩ <;> simp [Modem.gather_statistics, hget]

/-- An unreachable device: every send fails with a connection error; used
to witness C8. -/
def worldUnreachable : World :=
  { onSession := fun _ => .netError "connection refused"
    onStats := fun _ => .netError "connection refused" }

/-- Witness for C8 at a concrete unreachable-device world. -/
theorem transport_errors_no_retry_witness :
    (Modem.get { session := none } sesTokPath worldUnreachable.onSession
      = (.error (.transport "connection refused"),
          [Modem.buildGet { session := none } sesTokPath]) ∧
      (ModemError.transport "connection refused").category = .transport) ∧
    ((Modem.gather_statistics { session := none } worldUnreachable).fst
        = Except.error (.context "get session" (.transport "connection refused")) ∧
      (ModemError.context "get session" (.transport "connection refused")).category
        = .transport ∧
      (Modem.gather_statistics { session := none } worldUnreachable).snd
        = [Modem.buildGet { session := none } sesTokPath]) :=
  ⟨(transport_errors_no_retry { session := none } sesTokPath
      worldUnreachable.onSession worldUnreachable).1 "connection refused" rfl,
   (transport_errors_no_retry { session := none } sesTokPath
      worldUnreachable.onSession worldUnreachable).2.2 "connection refused" rfl⟩

/-- C10: when the session body parses successfully to an absent session,
the pipeline does not fail there: the statistics request is still issued,
with no cookie and no verification-token header, and the final result is
exactly the resolution of the statistics call. -/
theorem absent_session_proceeds (m : Modem) (w : World) (status : Nat)
    (hs : w.onSession (m.buildGet sesTokPath) = .httpResponse status (.ok none))
    (hok : errorForStatus status = false) :
    (m.gather_statistics w).snd
      = [m.buildGet sesTokPath, Modem.buildGet { session := none } trafficStatsPath] ∧
    (Modem.buildGet { session := none } trafficStatsPath).cookie = none ∧
    (Modem.buildGet { session := none } trafficStatsPath).token = none ∧
    (m.gather_statistics w).fst
      = Except.bind (Modem.get { session := none } trafficStatsPath w.onStats).fst
          ModemResponse.ok := by
  have hget : m.get sesTokPath w.onSession = (.ok none, [m.buildGet sesTokPath]) := by
    unfold Modem.get
    rw [hs]
    simp [hok]
  have htr := Modem.get_trace { session := none } trafficStatsPath w.onStats
  rcases hg2 : Modem.get { session := none } trafficStatsPath w.onStats with ⟨res2, t2⟩
  rw [hg2] at htr
  simp only at htr
  subst htr
  refine ⟨?_, rfl, rfl, ?_⟩
  · cases res2 with
    | error e => simp [Modem.gather_statistics, hget, hg2]
    | ok resp => cases hr : resp.ok <;> simp [Modem.gather_statistics, hget, hg2, hr]
  · cases res2 with
    | error e => simp [Modem.gather_statistics, hget, hg2, Except.bind]
    | ok resp =>
        cases hr : resp.ok <;>
          simp [Modem.gather_statistics, hget, hg2, hr, Except.bind]

/-- A device that reports an absent session (body parses to `None`) and
then answers the statistics call; used to witness C10. -/
def worldAbsentSession : World :=
  { onSession := fun _ => .httpResponse 200 (.ok none)
    onStats := fun _ => .httpResponse 200 (.ok (.Response exampleStats)) }

/-- Witness for C10 at a concrete absent-session world. -/
theorem absent_session_proceeds_witness :
    (Modem.gather_statistics { session := none } worldAbsentSession).snd
      = [Modem.buildGet { session := none } sesTokPath,
         Modem.buildGet { session := none } trafficStatsPath] ∧
    (Modem.buildGet { session := none } trafficStatsPath).cookie = none ∧
    (Modem.buildGet { session := none } trafficStatsPath).token = none ∧
    (Modem.gather_statistics { session := none } worldAbsentSession).fst
      = Except.bind
          (Modem.get { session := none } trafficStatsPath worldAbsentSession.onStats).fst
          ModemResponse.ok :=
  absent_session_proceeds { session := none } worldAbsentSession 200 rfl (by decide)
